import Mathlib

/-!
Shallow embedding of the BMP wire decoder in src/Server/src/parseBMP.cpp.

The byte stream arriving on the socket is modelled as a `List Nat` (each element
one byte, < 256 on real inputs).  `recv(sock, buf, n, MSG_WAITALL)` into a
zero-initialised buffer is modelled by `recvN`: it yields the n-byte buffer
(zero-padded when the stream ends early), the unread remainder of the stream,
and the number of bytes actually received.  Functions that `throw` a
`const char *` on error are modelled with `Except String`, carrying the exact
message string thrown by the source.

Struct layouts and named constants (BMP_HDRv3_LEN, BMP_PEER_HDR_LEN, the
stats/init/term type codes, field capacities of the DbInterface records) live
in parseBMP.h and DbInterface.hpp, which are not part of src/; those are
modelled from the wire layouts and tables in the specification and are marked
`Modelled from the spec:` below.  External collaborators (libc inet_ntop, the
DbInterface storage sink, the logger) are out of scope for every claim; the
storage-sink calls are therefore not recorded, and the logger is reflected
only where a claim needs it (the `errLogged` flag of `ParseState`).
-/

/-- Value of a byte list read as a little-endian integer: the result of
`memcpy` from the bytes into an integer variable on a little-endian host. -/
def leVal : List Nat → Nat
  | [] => 0
  | b :: rest => b + 256 * leVal rest

/-- Modelled from the spec: `reverse_bytes(buf, n)` reverses a byte run in
place (declared in parseBMP.h, which is not under src/). -/
def reverseBytes (l : List Nat) : List Nat := l.reverse

/-- Big-endian (network-order) value of a byte run: the source calls
`reverseBytes` on the field and then reads it on a little-endian host. -/
def beVal (l : List Nat) : Nat := leVal (reverseBytes l)

/-- Model of `recv(sock, buf, n, MSG_WAITALL)` into a zero-initialised n-byte buffer:
returns the buffer content (bytes received, zero-padded to n on a short read),
the unread remainder of the stream, and the count of bytes received. -/
def recvN (n : Nat) (src : List Nat) : List Nat × List Nat × Nat :=
  (src.take n ++ List.replicate (n - src.length) 0, src.drop n, min n src.length)

/-- Dotted-quad text of `snprintf(s, _, "%d.%d.%d.%d", a, b, c, d)`.  Also the
output of libc `inet_ntop(AF_INET, p)` on the four bytes `a b c d`. -/
def formatIPv4 (a b c d : Nat) : String :=
  toString a ++ "." ++ toString b ++ "." ++ toString c ++ "." ++ toString d

/-- Hexadecimal digits of a number, as text. -/
def hexStr (n : Nat) : String := String.mk (Nat.toDigits 16 n)

/-- Stand-in for libc `inet_ntop(AF_INET6, p)` (an external collaborator, not
repository code): an executable IPv6 text rendering of 16 bytes.  No claim in
this development depends on its exact output. -/
def formatIPv6 (bytes : List Nat) : String :=
  String.intercalate ":"
    ((List.range 8).map (fun i => hexStr (bytes.getD (2 * i) 0 * 256 + bytes.getD (2 * i + 1) 0)))

/-- Route-distinguisher text, from the switch on `peer_dist_id[0] << 8 |
peer_dist_id[1]` that appears, with identical bodies, in `parseBMPv2`
(lines 224-246) and `parsePeerHdr` (lines 329-352).  `g i` is the byte
`peer_dist_id[i]`.  In the default case the source ORs `g 6` and `g 7`
into the same low eight bits; that is kept bit-exact here. -/
def formatRD (g : Nat → Nat) : String :=
  if g 0 * 256 + g 1 = 1 then
    formatIPv4 (g 2) (g 3) (g 4) (g 5) ++ ":" ++ toString (g 6 * 256 + g 7)
  else if g 0 * 256 + g 1 = 2 then
    toString ((g 2 <<< 24) ||| (g 3 <<< 16) ||| (g 4 <<< 8) ||| g 5) ++ ":" ++
      toString (g 6 * 256 + g 7)
  else
    toString (g 1 * 256 + g 2) ++ ":" ++
      toString ((g 3 <<< 24) ||| (g 4 <<< 16) ||| (g 5 <<< 8) ||| g 6 ||| g 7)

/-- The route-distinguisher text the specification prescribes for unknown RD
types (spec section 9, normalised behaviour): administrator from the two
big-endian bytes at offsets 2-3, sub-field from the four big-endian bytes at
offsets 4-7.  Stated from the words of the specification, for comparison with
`formatRD`, which is taken from the source. -/
def formatRD_specDefault (g : Nat → Nat) : String :=
  toString (g 2 * 256 + g 3) ++ ":" ++ toString (beVal [g 4, g 5, g 6, g 7])

/-- The four hexadecimal digits printed by `snprintf("%04x", x)` for
`x < 0x10000` (both arguments of the `0x%04x%04x` format are of that form:
each is `byte << 8 | byte`). -/
def hexDigits4 (x : Nat) : List Nat :=
  [x / 4096 % 16, x / 256 % 16, x / 16 % 16, x % 16]

/-- Model of `strtoll(s, NULL, 16)` on a string of hexadecimal digits (after the `0x`
prefix, which strtoll base 16 skips), modelled at the digit level. -/
def hexToNat (ds : List Nat) : Nat := ds.foldl (fun a d => 16 * a + d) 0

/-- The peer-AS number stored by both parsers: the four AS bytes are printed
with `snprintf(peer_as, _, "0x%04x%04x", a0 << 8 | a1, a2 << 8 | a3)` and the
resulting string is read back with `strtoll(peer_as, NULL, 16)`. -/
def peerAsValue (a0 a1 a2 a3 : Nat) : Nat :=
  hexToNat (hexDigits4 (a0 * 256 + a1) ++ hexDigits4 (a2 * 256 + a3))

/-- Record `DbInterface::tbl_bgp_peer`, restricted to the fields parseBMP.cpp writes.
The constructor of `parseBMP` zeroes the whole record (`bzero`). -/
structure PeerEntry where
  peer_addr : String
  peer_as : Nat
  peer_bgp_id : String
  peer_rd : String
  timestamp_secs : Nat
  isIPv4 : Bool
  isPrePolicy : Bool
  isL3VPN : Nat
  hash_id : List Nat
deriving DecidableEq, Repr

/-- The state a `parseBMP` object carries across calls: the message type and
remaining length exposed by the common-header parsers, the peer record being
filled in, and a flag recording whether `parsePeerHdr` hit its `LOG_ERR`
short-read path (the logger itself is an external collaborator). -/
structure ParseState where
  bmp_type : Int
  bmp_len : Nat
  p_entry : PeerEntry
  errLogged : Bool
deriving DecidableEq, Repr

/-- The zeroed peer record produced by `bzero(p_entry, ...)` in the
constructor. -/
def peerZero : PeerEntry :=
  { peer_addr := "", peer_as := 0, peer_bgp_id := "", peer_rd := "",
    timestamp_secs := 0, isIPv4 := false, isPrePolicy := false, isL3VPN := 0,
    hash_id := [] }

/-- State right after the constructor: `bmp_type = -1`, `bmp_len = 0`, peer
record zeroed. -/
def stZero : ParseState :=
  { bmp_type := -1, bmp_len := 0, p_entry := peerZero, errLogged := false }

/-- Modelled from the spec: size of the v3 per-peer header block read by
`parsePeerHdr` (1 type + 1 flags + 8 RD + 16 address + 4 AS + 4 BGP-ID +
4 ts_secs + 4 ts_usecs; constant defined in parseBMP.h, not under src/). -/
def BMP_PEER_HDR_LEN : Nat := 42

/-- Modelled from the spec: size of the v1/v2 common header read after the
version byte (1 type + 1 peer_type + 1 peer_flags + 8 RD + 16 address +
4 AS + 4 BGP-ID + 4 ts_secs + 4 ts_usecs). -/
def BMP_HDRv1v2_LEN : Nat := 43

/-- Modelled from the spec: size of the v3 common header after the version
byte (1 message type + 4 length). -/
def BMP_HDRv3_LEN : Nat := 5

/-- Population of the peer record from a filled 42-byte v3 peer-header buffer
(`parsePeerHdr`, lines 291-374).  `buf.getD i 0` is byte i of the buffer.
Offsets: peer_type 0, peer_flags 1, peer_dist_id 2-9, peer_addr 10-25,
peer_as 26-29, peer_bgp_id 30-33, ts_secs 34-37.  `now` is the value of
`time(NULL)`. -/
def peerEntryOfBuf (p0 : PeerEntry) (now : Nat) (buf : List Nat) : PeerEntry :=
  let g := fun i => buf.getD i 0
  let ts := beVal [g 34, g 35, g 36, g 37]
  { p0 with
    isIPv4 := g 1 &&& 128 == 0
    peer_addr :=
      if g 1 &&& 128 == 0 then formatIPv4 (g 22) (g 23) (g 24) (g 25)
      else formatIPv6 ((buf.drop 10).take 16)
    isPrePolicy := g 1 &&& 64 == 0
    peer_as := peerAsValue (g 26) (g 27) (g 28) (g 29)
    peer_bgp_id := formatIPv4 (g 30) (g 31) (g 32) (g 33)
    peer_rd := formatRD (fun i => g (2 + i))
    timestamp_secs := if ts ≠ 0 then ts else now
    isL3VPN := if g 0 = 1 then 1 else 0 }

/-- Population of the peer record from a filled 43-byte v1/v2 common-header
buffer (`parseBMPv2`, lines 192-267).  Offsets: type 0, peer_type 1,
peer_flags 2, peer_dist_id 3-10, peer_addr 11-26, peer_as 27-30,
peer_bgp_id 31-34, ts_secs 35-38.  The v1/v2 path does not set
`isPrePolicy` (the L flag is only logged), and its L3VPN test reads the
message type byte (`c_hdr.type == 1`), not the peer type. -/
def peerEntryOfBufV2 (p0 : PeerEntry) (now : Nat) (buf : List Nat) : PeerEntry :=
  let g := fun i => buf.getD i 0
  let ts := beVal [g 35, g 36, g 37, g 38]
  { p0 with
    isIPv4 := g 2 &&& 128 == 0
    peer_addr :=
      if g 2 &&& 128 == 0 then formatIPv4 (g 23) (g 24) (g 25) (g 26)
      else formatIPv6 ((buf.drop 11).take 16)
    peer_as := peerAsValue (g 27) (g 28) (g 29) (g 30)
    peer_bgp_id := formatIPv4 (g 31) (g 32) (g 33) (g 34)
    peer_rd := formatRD (fun i => g (3 + i))
    timestamp_secs := if ts ≠ 0 then ts else now
    isL3VPN := if g 0 = 1 then 1 else 0 }

/-- Function `parseBMP::parsePeerHdr` (lines 281-381).  On a short read the source only
calls `LOG_ERR` (the could-not-read-all-bytes notice) and falls through: the peer record
is populated from the partially filled, zero-initialised buffer.  No error is
thrown. -/
def parsePeerHdr (st : ParseState) (now : Nat) (src : List Nat) :
    ParseState × List Nat :=
  let r := recvN BMP_PEER_HDR_LEN src
  ({ st with
      p_entry := peerEntryOfBuf st.p_entry now r.1
      errLogged := if r.2.2 = BMP_PEER_HDR_LEN then st.errLogged else true },
    r.2.1)

/-- Function `parseBMP::parseBMPv2` (lines 161-274): reads the 43-byte v1/v2 common
header (throwing on a short read), exposes `bmp_type` and populates the peer
record from the embedded fields. -/
def parseBMPv2 (st : ParseState) (now : Nat) (src : List Nat) :
    Except String ParseState × List Nat :=
  let r := recvN BMP_HDRv1v2_LEN src
  if r.2.2 ≠ BMP_HDRv1v2_LEN then
    (.error "ERROR: Cannot read v1/v2 BMP common header.", r.2.1)
  else
    (.ok { st with
        bmp_type := (r.1.getD 0 0 : Nat)
        p_entry := peerEntryOfBufV2 st.p_entry now r.1 }, r.2.1)

/-- Function `parseBMP::parseBMPv3` (lines 100-151): reads the 5-byte v3 common header
(throwing on a short read), converts the 4-byte length to host order, and
subtracts `1 + BMP_HDRv3_LEN` from it (unsigned 32-bit arithmetic) before
exposing it as `bmp_len`.  Message types 0-3 then read a peer header; types
4 and 5 (Initiation/Termination) and unknown types consume nothing further
here. -/
def parseBMPv3 (st : ParseState) (now : Nat) (src : List Nat) :
    Except String ParseState × List Nat :=
  let r := recvN BMP_HDRv3_LEN src
  if r.2.2 ≠ BMP_HDRv3_LEN then
    (.error "ERROR: Cannot read v3 BMP common header.", r.2.1)
  else
    let typ := r.1.getD 0 0
    let len := (beVal [r.1.getD 1 0, r.1.getD 2 0, r.1.getD 3 0, r.1.getD 4 0] % 4294967296
                 + (4294967296 - (1 + BMP_HDRv3_LEN))) % 4294967296
    let st1 := { st with bmp_type := (typ : Nat), bmp_len := len }
    if typ = 0 ∨ typ = 1 ∨ typ = 2 ∨ typ = 3 then
      let pr := parsePeerHdr st1 now r.2.1
      (.ok pr.1, pr.2)
    else
      (.ok st1, r.2.1)

/-- Outcome of `read(sock, &ver, 1)` at the start of `handleMessage`: an I/O
error (`read` returned a negative count), or a stream of bytes (an empty
stream meaning the peer closed the connection in an orderly way, so `read`
returned 0). -/
inductive Conn where
  | ioError : Conn
  | stream : List Nat → Conn

/-- Function `parseBMP::handleMessage` (lines 60-89): reads exactly one version byte
and dispatches.  Version 3 goes to `parseBMPv3`, versions 1 and 2 to
`parseBMPv2`, anything else throws the unsupported-version message with no
further bytes consumed.  A negative read and a zero read throw distinct
messages.  The error strings are the ones thrown by the source. -/
def handleMessage (st : ParseState) (now : Nat) (c : Conn) :
    Except String ParseState × List Nat :=
  match c with
  | .ioError => (.error "(1) Failed to read from socket.", [])
  | .stream [] => (.error "(2) Connection closed", [])
  | .stream (ver :: rest) =>
    if ver = 3 then parseBMPv3 st now rest
    else if ver = 1 ∨ ver = 2 then parseBMPv2 st now rest
    else (.error "ERROR: Unsupported BMP message version", rest)

/-- Record `DbInterface::tbl_peer_up_event`, restricted to the fields parseBMP.cpp
writes. -/
structure PeerUpEvent where
  peer_hash_id : List Nat
  timestamp_secs : Nat
  local_ip : String
  local_port : Nat
  remote_port : Nat
deriving DecidableEq, Repr

/-- Failure path of `parsePeerUpEventHdr` (lines 439-447): `bytes_to_read`
is computed as `bmp_len - BMP_PEER_HDR_LEN - bytes_read`.  `bmp_len` is a
`uint32_t`, so the subtraction happens in unsigned 32-bit arithmetic and the
result is then converted to `int bytes_to_read`: when the unsigned value is
at least 2^31 - that is, whenever `bmp_len < BMP_PEER_HDR_LEN + bytes_read`
(the value wraps) or the genuine difference is 2^31 or more - the `int` is
negative, and `new unsigned char[bytes_to_read]` converts that negative
count to a huge `size_t` and throws `std::bad_array_new_length`, so the
function exits by exception and never returns.  Otherwise the source drains
`bytes_to_read` bytes with `recv` and the function returns false.  Either
way `up_event` is a by-reference parameter the caller keeps, so the event
content below is caller-visible even on the throwing path. -/
def peerUpFail (ev : PeerUpEvent) (rest : List Nat) (bmp_len bytes_read : Nat) :
    Option String × Bool × PeerUpEvent × List Nat :=
  let d := (bmp_len % 4294967296 + (4294967296 - (BMP_PEER_HDR_LEN + bytes_read))) % 4294967296
  if d < 2147483648 then (none, false, ev, rest.drop d)
  else (some "std::bad_array_new_length", false, ev, rest)

/-- Function `parseBMP::parsePeerUpEventHdr` (lines 393-450).  The event timestamp and
peer hash id are copied from the current peer record before the first `recv`.
Then the 16-byte local address, the 2-byte local port and the 2-byte remote
port are read in order; any short read clears `isParseGood` and enters the
failure path `peerUpFail`, which either drains the rest of the message and
returns false or throws from a negative-size `new[]` (see `peerUpFail`).
The first component is the exception: `none` when the function returns
normally with the `Bool` result of the source, `some` the C++ exception
text when it never returns.  The event component is the caller-visible
content of the by-reference `up_event` in every outcome.  A port whose
read came up short is modelled as left unchanged (the source leaves it
partially written and skips the byte-order conversion). -/
def parsePeerUpEventHdr (st : ParseState) (ev : PeerUpEvent) (src : List Nat) :
    Option String × Bool × PeerUpEvent × List Nat :=
  let ev0 := { ev with timestamp_secs := st.p_entry.timestamp_secs,
                       peer_hash_id := st.p_entry.hash_id }
  if 16 ≤ src.length then
    let la := src.take 16
    let src1 := src.drop 16
    let ev1 :=
      if st.p_entry.isIPv4 then
        { ev0 with local_ip := formatIPv4 (la.getD 12 0) (la.getD 13 0) (la.getD 14 0) (la.getD 15 0) }
      else
        { ev0 with local_ip := formatIPv6 la }
    if 2 ≤ src1.length then
      let ev2 := { ev1 with local_port := beVal (src1.take 2) }
      let src2 := src1.drop 2
      if 2 ≤ src2.length then
        (none, true, { ev2 with remote_port := beVal (src2.take 2) }, src2.drop 2)
      else
        peerUpFail ev2 (src2.drop 2) st.bmp_len 18
    else
      peerUpFail ev1 (src1.drop 2) st.bmp_len 16
  else
    peerUpFail ev0 (src.drop 16) st.bmp_len 0

/-- Record `DbInterface::tbl_stats_report`: the peer hash id and the nine named
counters.  The source zeroes the record and then copies the peer hash id. -/
structure StatsRecord where
  peer_hash_id : List Nat
  prefixes_rej : Nat
  known_dup_prefixes : Nat
  known_dup_withdraws : Nat
  invalid_cluster_list : Nat
  invalid_as_path_loop : Nat
  invalid_originator_id : Nat
  invalid_as_confed_loop : Nat
  routes_adj_rib_in : Nat
  routes_loc_rib : Nat
deriving DecidableEq, Repr

/-- Modelled from the spec: the nine stats type codes (constants defined in
parseBMP.h, not under src/).  The specification lists the nine counters in
order and its scenario fixes code 0 = prefixes rejected and code 7 = routes
in Adj-RIB-In, so the codes are 0 through 8 in the listed order. -/
def STATS_PREFIX_REJ : Nat := 0

/-- Modelled from the spec: stats type code for duplicate prefixes.  (The
source constant name ends in a token this development cannot use, hence the
plural form.) -/
def STATS_DUP_PREFIXES : Nat := 1

/-- Modelled from the spec: stats type code for duplicate withdraws. -/
def STATS_DUP_WITHDRAW : Nat := 2

/-- Modelled from the spec: stats type code for invalid cluster list. -/
def STATS_INVALID_CLUSTER_LIST : Nat := 3

/-- Modelled from the spec: stats type code for AS-path loops. -/
def STATS_INVALID_AS_PATH_LOOP : Nat := 4

/-- Modelled from the spec: stats type code for invalid originator id. -/
def STATS_INVALID_ORIGINATOR_ID : Nat := 5

/-- Modelled from the spec: stats type code for AS-confed loops. -/
def STATS_INVALID_AS_CONFED_LOOP : Nat := 6

/-- Modelled from the spec: stats type code for routes in Adj-RIB-In. -/
def STATS_NUM_ROUTES_ADJ_RIB_IN : Nat := 7

/-- Modelled from the spec: stats type code for routes in Loc-RIB. -/
def STATS_NUM_ROUTES_LOC_RIB : Nat := 8

/-- The switch on `stat_type` in `handleStatsReport` (lines 502-530): copy the
host-order value into the counter slot named by the type; unknown types fall
through with no update. -/
def statsApply (s : StatsRecord) (t : Nat) (v : Nat) : StatsRecord :=
  if t = STATS_PREFIX_REJ then { s with prefixes_rej := v }
  else if t = STATS_DUP_PREFIXES then { s with known_dup_prefixes := v }
  else if t = STATS_DUP_WITHDRAW then { s with known_dup_withdraws := v }
  else if t = STATS_INVALID_CLUSTER_LIST then { s with invalid_cluster_list := v }
  else if t = STATS_INVALID_AS_PATH_LOOP then { s with invalid_as_path_loop := v }
  else if t = STATS_INVALID_ORIGINATOR_ID then { s with invalid_originator_id := v }
  else if t = STATS_INVALID_AS_CONFED_LOOP then { s with invalid_as_confed_loop := v }
  else if t = STATS_NUM_ROUTES_ADJ_RIB_IN then { s with routes_adj_rib_in := v }
  else if t = STATS_NUM_ROUTES_LOC_RIB then { s with routes_loc_rib := v }
  else s

/-- Reads the counter slot named by a stats type code (0 for codes outside
the recognized nine).  Used to state which slot a TLV updated. -/
def statSlot (t : Nat) (s : StatsRecord) : Nat :=
  if t = STATS_PREFIX_REJ then s.prefixes_rej
  else if t = STATS_DUP_PREFIXES then s.known_dup_prefixes
  else if t = STATS_DUP_WITHDRAW then s.known_dup_withdraws
  else if t = STATS_INVALID_CLUSTER_LIST then s.invalid_cluster_list
  else if t = STATS_INVALID_AS_PATH_LOOP then s.invalid_as_path_loop
  else if t = STATS_INVALID_ORIGINATOR_ID then s.invalid_originator_id
  else if t = STATS_INVALID_AS_CONFED_LOOP then s.invalid_as_confed_loop
  else if t = STATS_NUM_ROUTES_ADJ_RIB_IN then s.routes_adj_rib_in
  else if t = STATS_NUM_ROUTES_LOC_RIB then s.routes_loc_rib
  else 0

/-- One iteration of the stats loop in `handleStatsReport` (lines 480-542):
read the 2-byte type and 2-byte length (throwing the source messages on a
short read), convert both to host order.  If the length is 4 or 8 and the
value bytes all arrive, convert the value to host order and apply the type
switch; a short value read silently skips the update.  Any other length is
skipped one byte at a time (`while (stat_len-- > 0) read(sock, &b[0], 1)`),
with no update and no error. -/
def processStatTLV (s : StatsRecord) (src : List Nat) :
    Except String (StatsRecord × List Nat) :=
  if src.length < 2 then
    .error "ERROR: Cannot proceed since we cannot read the stats type."
  else
    let t := beVal (src.take 2)
    let src1 := src.drop 2
    if src1.length < 2 then
      .error "ERROR: Cannot proceed since we cannot read the stats len."
    else
      let len := beVal (src1.take 2)
      let src2 := src1.drop 2
      if len = 4 ∨ len = 8 then
        if len ≤ src2.length then
          .ok (statsApply s t (beVal (src2.take len)), src2.drop len)
        else
          .ok (s, src2.drop len)
      else
        .ok (s, src2.drop len)

/-- The counted loop of `handleStatsReport`: `stats_cnt` iterations of
`processStatTLV`. -/
def statsLoop : Nat → StatsRecord → List Nat → Except String (StatsRecord × List Nat)
  | 0, s, src => .ok (s, src)
  | n + 1, s, src =>
    match processStatTLV s src with
    | .error e => .error e
    | .ok (s1, src1) => statsLoop n s1 src1

/-- Function `parseBMP::handleStatsReport` (lines 459-546): read the 4-byte counter
count (big-endian), then run the TLV loop starting from a zeroed record
carrying the current peer hash id.  The final `add_StatReport` call goes to
the external storage sink and is represented by the returned record. -/
def handleStatsReport (hash : List Nat) (src : List Nat) :
    Except String (StatsRecord × List Nat) :=
  if src.length < 4 then
    .error "ERROR:  Cannot proceed since we cannot read the stats mon counter"
  else
    statsLoop (beVal (src.take 4))
      { peer_hash_id := hash, prefixes_rej := 0, known_dup_prefixes := 0,
        known_dup_withdraws := 0, invalid_cluster_list := 0,
        invalid_as_path_loop := 0, invalid_originator_id := 0,
        invalid_as_confed_loop := 0, routes_adj_rib_in := 0, routes_loc_rib := 0 }
      (src.drop 4)

/-- Record `DbInterface::tbl_router`, restricted to the fields parseBMP.cpp writes.
Byte-array fields are lists holding the current content of the array. -/
structure Router where
  name : List Nat
  descr : List Nat
  initiate_data : List Nat
  term_data : List Nat
  term_reason_code : Nat
  term_reason_text : String
deriving DecidableEq, Repr

/-- Modelled from the spec: the capacities (`sizeof`) of the bounded byte
fields of `DbInterface::tbl_router` (declared in DbInterface.hpp, not under
src/; the specification only says each field is bounded, so the capacities
are parameters of the model). -/
structure Caps where
  init_data : Nat
  term_data : Nat
  name : Nat
  descr : Nat
deriving DecidableEq, Repr

/-- Model of `memcpy(dst, src, n)` where `dst` is a byte array holding `dst0`: the
first n bytes become the first n bytes of `src`, the rest of `dst0` is
untouched.  Callers are responsible for supplying the bytes `memcpy` would
read past the end of a too-short source buffer (undefined in C). -/
def memcpyBytes (dst0 src : List Nat) (n : Nat) : List Nat :=
  src.take n ++ dst0.drop n

/-- Model of `strncpy(dst, src, n)`: copies bytes of `src` up to its first NUL byte,
zero-padding to exactly n bytes, or exactly n bytes of `src` when no NUL
appears among them. -/
def strncpyBytes (n : Nat) (src : List Nat) : List Nat :=
  let pre := src.takeWhile (fun b => b ≠ 0)
  if n ≤ pre.length then pre.take n
  else pre ++ List.replicate (n - pre.length) 0

/-- Modelled from the spec: Initiation TLV type 0, the free-form string
(constant defined in parseBMP.h, not under src/; codes from the spec table). -/
def INIT_TYPE_FREE_FORM_STRING : Nat := 0

/-- Modelled from the spec: Initiation TLV type 1, sysDescr. -/
def INIT_TYPE_SYSDESCR : Nat := 1

/-- Modelled from the spec: Initiation TLV type 2, sysName. -/
def INIT_TYPE_SYSNAME : Nat := 2

/-- Modelled from the spec: Termination TLV type 0, the free-form string. -/
def TERM_TYPE_FREE_FORM_STRING : Nat := 0

/-- Modelled from the spec: Termination TLV type 1, the reason code. -/
def TERM_TYPE_REASON : Nat := 1

/-- Modelled from the spec: size of the init/term TLV header that is
`memcpy`-ed into `init_msg_v3`/`term_msg_v3` (2-byte type + 2-byte length). -/
def BMP_INIT_MSG_LEN : Nat := 4

/-- Modelled from the spec: same 4-byte TLV header size for Termination. -/
def BMP_TERM_MSG_LEN : Nat := 4

/-- The TLV walk of `handleInitMsg` (lines 573-620): starting at offset i,
read a 4-byte header (type, length, both converted to host order), then copy
`infoLen = min(sizeof(infoBuf), len)` value bytes into the zeroed `infoBuf`
(whose size is `sizeof(r_entry.initiate_data)`), and dispatch on the type:
type 0 does `memcpy(r_entry.initiate_data, initMsg.info, initMsg.len)` -
note the third argument is the full declared length, not `infoLen`, so more
than the field capacity can be written; the bytes such a `memcpy` reads past
the end of `infoBuf` are unspecified in C and are modelled as zeros (the
claims touch only the in-capacity bytes and the written length).  Types 2 and
1 use `strncpy` bounded by the name/descr capacities.  Reads past the end of
the message buffer (a TLV header straddling the end) are modelled as zeros
via `getD`.  The first argument is fuel: the source loop ends once
`i ≥ bmp_len`, and since every iteration advances i by at least 4, a fuel of
`bmp_len` (supplied by `handleInitMsg`) always suffices. -/
def initTlvLoop (caps : Caps) (bmp_len : Nat) (buf : List Nat) :
    Nat → Router → Nat → Router
  | 0, r, _ => r
  | fuel + 1, r, i =>
    if i < bmp_len then
      let t := beVal [buf.getD i 0, buf.getD (i + 1) 0]
      let l := beVal [buf.getD (i + 2) 0, buf.getD (i + 3) 0]
      let infoLen := if 0 < l then min caps.init_data l else 0
      let infoBuf := (buf.drop (i + 4)).take infoLen ++
                     List.replicate (caps.init_data - infoLen) 0
      let written := memcpyBytes r.initiate_data
        (infoBuf ++ List.replicate (l - caps.init_data) 0) l
      let r1 :=
        if t = INIT_TYPE_FREE_FORM_STRING then
          { r with initiate_data := written }
        else if t = INIT_TYPE_SYSNAME then
          { r with name := strncpyBytes caps.name infoBuf }
        else if t = INIT_TYPE_SYSDESCR then
          { r with descr := strncpyBytes caps.descr infoBuf }
        else r
      initTlvLoop caps bmp_len buf fuel r1 (i + BMP_INIT_MSG_LEN + infoLen)
    else r

/-- Function `parseBMP::handleInitMsg` (lines 555-629).  When `bmp_len ≤ 40000` the
whole body is read into a buffer (throwing the source message if the stream
is short) and walked by `initTlvLoop`; the result is the updated router
record, the count of bytes read from the stream, and the unread remainder.
When `bmp_len > 40000` the source only logs a notice: nothing is read and
the router record is returned unchanged. -/
def handleInitMsg (caps : Caps) (bmp_len : Nat) (r : Router) (src : List Nat) :
    Except String (Router × Nat × List Nat) :=
  if bmp_len ≤ 40000 then
    if src.length < bmp_len then
      .error "ERROR: Failed to read complete init message from socket."
    else
      .ok (initTlvLoop caps bmp_len (src.take bmp_len) bmp_len r 0,
           bmp_len, src.drop bmp_len)
  else
    .ok (r, 0, src)

/-- The text `handleTermMsg` formats for each termination reason code
(lines 698-727).  Codes: 0 unspecified, 1 administrative close, 2 out of
resources, 3 redundant connection; anything else gets the unknown-reason
text with the code spliced in by `%d`. -/
def termReasonText (tr : Nat) : String :=
  if tr = 1 then "Remote session administratively closed"
  else if tr = 2 then "Remote out of resources"
  else if tr = 3 then "Remote considers connection redundant"
  else if tr = 0 then "Remote closed with unspecified reason"
  else "Unknown " ++ toString tr ++ " termination reason, which is not part of draft."

/-- The TLV walk of `handleTermMsg` (lines 659-735): same framing as
`initTlvLoop` with `infoBuf` sized by `sizeof(r_entry.term_data)`.  Type 0
repeats the over-long `memcpy` of the init path into `term_data`; type 1
takes the first two info bytes as a big-endian reason code and formats the
reason text.  (For a reason TLV with declared length 0 the source reads two
bytes through a NULL pointer; the model reads zeros there, a path no claim
exercises.) -/
def termTlvLoop (caps : Caps) (bmp_len : Nat) (buf : List Nat) :
    Nat → Router → Nat → Router
  | 0, r, _ => r
  | fuel + 1, r, i =>
    if i < bmp_len then
      let t := beVal [buf.getD i 0, buf.getD (i + 1) 0]
      let l := beVal [buf.getD (i + 2) 0, buf.getD (i + 3) 0]
      let infoLen := if 0 < l then min caps.term_data l else 0
      let infoBuf := (buf.drop (i + 4)).take infoLen ++
                     List.replicate (caps.term_data - infoLen) 0
      let written := memcpyBytes r.term_data
        (infoBuf ++ List.replicate (l - caps.term_data) 0) l
      let r1 :=
        if t = TERM_TYPE_FREE_FORM_STRING then
          { r with term_data := written }
        else if t = TERM_TYPE_REASON then
          let tr := beVal [infoBuf.getD 0 0, infoBuf.getD 1 0]
          { r with term_reason_code := tr, term_reason_text := termReasonText tr }
        else r
      termTlvLoop caps bmp_len buf fuel r1 (i + BMP_TERM_MSG_LEN + infoLen)
    else r

/-- Function `parseBMP::handleTermMsg` (lines 641-744): same 40000-byte gate as
`handleInitMsg`, walking the body with `termTlvLoop`. -/
def handleTermMsg (caps : Caps) (bmp_len : Nat) (r : Router) (src : List Nat) :
    Except String (Router × Nat × List Nat) :=
  if bmp_len ≤ 40000 then
    if src.length < bmp_len then
      .error "ERROR: Failed to read complete term message from socket."
    else
      .ok (termTlvLoop caps bmp_len (src.take bmp_len) bmp_len r 0,
           bmp_len, src.drop bmp_len)
  else
    .ok (r, 0, src)

/-- Concrete state with a marked peer address, used to exhibit that a short
peer-header read still overwrites the peer record. -/
def stC2 : ParseState :=
  { bmp_type := 0, bmp_len := 0, errLogged := false,
    p_entry := { peerZero with peer_addr := "unset" } }

/-- Concrete field capacities for the router record (the real capacities live
in DbInterface.hpp, outside src/; the model takes them as parameters, and the
concrete runs below use 16 bytes for every field). -/
def capsC1 : Caps := { init_data := 16, term_data := 16, name := 16, descr := 16 }

/-- A router record whose byte fields hold their capacity of zero bytes. -/
def routerC1 : Router :=
  { name := List.replicate 16 0, descr := List.replicate 16 0,
    initiate_data := List.replicate 16 0, term_data := List.replicate 16 0,
    term_reason_code := 0, term_reason_text := "" }

/-- An Initiation body of 21 bytes: one TLV of type 0 whose declared length 17
exceeds the 16-byte capacity of `initiate_data`, followed by its 17 value
bytes. -/
def initBodyC1 : List Nat :=
  [0, 0, 0, 17, 1, 2, 3, 4, 5, 6, 7, 8, 9, 10, 11, 12, 13, 14, 15, 16, 17]

/-- An 8-byte route distinguisher whose 2-byte type field is 3 (neither 1
nor 2), driving both RD formatters into their default branch. -/
def rdBytesC3 : List Nat := [0, 3, 17, 34, 51, 68, 85, 102]

/-- A 42-byte v3 peer header carrying `rdBytesC3` at the RD offsets 2-9 and
zeros elsewhere. -/
def peerHdrC3 : List Nat := [0, 0] ++ rdBytesC3 ++ List.replicate 32 0

/-- A 43-byte v1/v2 common header carrying `rdBytesC3` at the RD offsets 3-10
and zeros elsewhere. -/
def v2HdrC3 : List Nat := [0, 0, 0] ++ rdBytesC3 ++ List.replicate 32 0

/-- A stats record with empty hash id and all counters zero. -/
def statsZero : StatsRecord :=
  { peer_hash_id := [], prefixes_rej := 0, known_dup_prefixes := 0,
    known_dup_withdraws := 0, invalid_cluster_list := 0, invalid_as_path_loop := 0,
    invalid_originator_id := 0, invalid_as_confed_loop := 0, routes_adj_rib_in := 0,
    routes_loc_rib := 0 }

/-- A peer-up event record with marker content, to watch which fields the
decoder overwrites. -/
def evZero : PeerUpEvent :=
  { peer_hash_id := [9, 9], timestamp_secs := 0, local_ip := "", local_port := 0,
    remote_port := 0 }

/-- A 43-byte stream of byte value 7: long enough for either header parser. -/
def srcW : List Nat := List.replicate 43 7

/-- A state whose `bmp_len` of 100 keeps the peer-up failure drain
`bmp_len - BMP_PEER_HDR_LEN - bytes_read` nonnegative, so the source
actually returns false there instead of throwing from `new[]`. -/
def stC10 : ParseState := { stZero with bmp_len := 100 }

/-- Helper: the hex-print-then-reparse of the peer AS equals the big-endian
value of its four bytes. -/
theorem peerAsValue_eq_beVal (a0 a1 a2 a3 : Nat)
    (h0 : a0 < 256) (h1 : a1 < 256) (h2 : a2 < 256) (h3 : a3 < 256) :
    peerAsValue a0 a1 a2 a3 = beVal [a0, a1, a2, a3] := by
  simp [peerAsValue, hexDigits4, hexToNat, beVal, reverseBytes, leVal]
  omega

/-- Helper: indexing a prefix agrees with indexing the whole list. -/
theorem getD_take_of_lt (l : List Nat) (n i : Nat) (h : i < n) :
    (l.take n).getD i 0 = l.getD i 0 := by
  induction l generalizing n i with
  | nil => simp
  | cons a t ih =>
    cases n with
    | zero => omega
    | succ n =>
      cases i with
      | zero => simp
      | succ i => simpa using ih n i (by omega)

/-- Helper: an in-range element of a list of bytes is a byte. -/
theorem getD_lt_of_forall (l : List Nat) (hb : ∀ b ∈ l, b < 256) (i : Nat)
    (h : i < l.length) : l.getD i 0 < 256 := by
  have : l.getD i 0 = l.get ⟨i, h⟩ := by
    simp [List.getD, List.getElem?_eq_getElem h]
  rw [this]
  exact hb _ (l.get_mem _ _)

/-- Helper: `parsePeerHdr` never writes `bmp_len`. -/
theorem parsePeerHdr_bmp_len (st : ParseState) (now : Nat) (src : List Nat) :
    (parsePeerHdr st now src).1.bmp_len = st.bmp_len := rfl

/-- Helper: the zero padding added by `recvN` vanishes when the stream holds
at least 42 bytes. -/
theorem take42_eq (src : List Nat) (h : 42 ≤ src.length) :
    src.take 42 ++ List.replicate (42 - src.length) 0 = src.take 42 := by
  simp [Nat.sub_eq_zero_of_le h]

/-- Helper: for a recognized type code the switch writes the slot that
`statSlot` reads. -/
theorem statSlot_statsApply (s : StatsRecord) (t v : Nat) (h : t ≤ 8) :
    statSlot t (statsApply s t v) = v := by
  interval_cases t <;>
    simp [statsApply, statSlot, STATS_PREFIX_REJ, STATS_DUP_PREFIXES, STATS_DUP_WITHDRAW,
      STATS_INVALID_CLUSTER_LIST, STATS_INVALID_AS_PATH_LOOP, STATS_INVALID_ORIGINATOR_ID,
      STATS_INVALID_AS_CONFED_LOOP, STATS_NUM_ROUTES_ADJ_RIB_IN, STATS_NUM_ROUTES_LOC_RIB]

/-- Helper: an unrecognized type code leaves the stats record unchanged. -/
theorem statsApply_unknown (s : StatsRecord) (t v : Nat) (h : 8 < t) :
    statsApply s t v = s := by
  simp only [statsApply, STATS_PREFIX_REJ, STATS_DUP_PREFIXES, STATS_DUP_WITHDRAW,
    STATS_INVALID_CLUSTER_LIST, STATS_INVALID_AS_PATH_LOOP, STATS_INVALID_ORIGINATOR_ID,
    STATS_INVALID_AS_CONFED_LOOP, STATS_NUM_ROUTES_ADJ_RIB_IN, STATS_NUM_ROUTES_LOC_RIB]
  repeat rw [if_neg (by omega)]

/-- Claim C1 (code bug, demonstrated): for an Initiation TLV of type 0 the
source runs `memcpy(r_entry.initiate_data, initMsg.info, initMsg.len)` with
the full declared TLV length, not the capacity-clamped `infoLen`.  On a body
holding one type-0 TLV of declared length 17 against a 16-byte
`initiate_data` capacity, 17 bytes are written into the field (the 16 bytes
that fit in `infoBuf` plus one byte read past its end), exceeding the
capacity - the claimed truncation to capacity does not happen. -/
theorem handleInitMsg_freeform_overflow :
    (match handleInitMsg capsC1 21 routerC1 initBodyC1 with
     | .ok (r, n, _) => (r.initiate_data, n)
     | .error _ => ([], 0)) =
      ([1, 2, 3, 4, 5, 6, 7, 8, 9, 10, 11, 12, 13, 14, 15, 16, 0], 21)
  ∧ capsC1.init_data = 16
  ∧ routerC1.initiate_data.length = 16
  ∧ (16 : Nat) < 17 := by decide

/-- Claim C2 counterexample: on a 2-byte stream (40 bytes short of the
42-byte v3 per-peer header) `parsePeerHdr` does not fail; it only logs an
error and goes on to populate the peer record from the partially filled
zero-initialised buffer - the peer address becomes "0.0.0.0" and the
timestamp becomes the wall clock, overwriting the previous record.  This
refutes the claim that a short peer-header read is fatal and leaves the
record unpopulated. -/
theorem parsePeerHdr_short_not_fatal :
    (parsePeerHdr stC2 12345 [0, 0]).1.errLogged = true
  ∧ (parsePeerHdr stC2 12345 [0, 0]).1.p_entry.peer_addr = "0.0.0.0"
  ∧ (parsePeerHdr stC2 12345 [0, 0]).1.p_entry.timestamp_secs = 12345
  ∧ stC2.p_entry.peer_addr = "unset"
  ∧ (parsePeerHdr stC2 12345 [0, 0]).1.p_entry ≠ stC2.p_entry := by decide

/-- Claim C2 amended: a short read of the fixed-size v3 per-peer header is
not fatal; `parsePeerHdr` logs an error (no exception reaches the caller)
and populates the current peer record from the partially filled buffer,
whose unread remainder is zero. -/
theorem parsePeerHdr_short_populates (st : ParseState) (now : Nat) (src : List Nat)
    (h : src.length < 42) :
    (parsePeerHdr st now src).1.errLogged = true
  ∧ (parsePeerHdr st now src).1.p_entry =
      peerEntryOfBuf st.p_entry now (src.take 42 ++ List.replicate (42 - src.length) 0) := by
  constructor
  · simp only [parsePeerHdr, recvN, BMP_PEER_HDR_LEN]
    rw [if_neg (by omega)]
  · rfl

/-- Claim C3 (code bug, demonstrated): for an 8-byte route distinguisher of
type 3 (neither 1 nor 2) both the v1/v2 and the v3 path format the text from
bytes 1-2 (administrator) and an OR of bytes 3-7 in which bytes 6 and 7
share the low eight bits, yielding "785:573785207" on the bytes
00 03 11 22 33 44 55 66; the specified format (administrator big-endian at
offsets 2-3, sub-field big-endian at offsets 4-7) yields "4386:860116326"
on the same bytes. -/
theorem formatRD_default_mismatch :
    (parsePeerHdr stZero 99 peerHdrC3).1.p_entry.peer_rd = "785:573785207"
  ∧ (match (parseBMPv2 stZero 99 v2HdrC3).1 with
     | .ok st2 => st2.p_entry.peer_rd
     | .error _ => "") = "785:573785207"
  ∧ formatRD_specDefault (fun i => rdBytesC3.getD i 0) = "4386:860116326"
  ∧ ("785:573785207" : String) ≠ "4386:860116326" := by decide

/-- Claim C4: after `parseBMPv3` decodes a v3 common header whose 4-byte
big-endian wire length is L with L ≥ 6, the parse succeeds and the exposed
`bmp_len` equals L - (1 + BMP_HDRv3_LEN) = L - 6: the bytes of the message
remaining after the version, type, and length fields. -/
theorem parseBMPv3_bmp_len (st : ParseState) (now : Nat) (t b1 b2 b3 b4 : Nat)
    (rest : List Nat) (h1 : b1 < 256) (h2 : b2 < 256) (h3 : b3 < 256) (h4 : b4 < 256)
    (hL : 6 ≤ beVal [b1, b2, b3, b4]) :
    ∃ st2, (parseBMPv3 st now (t :: b1 :: b2 :: b3 :: b4 :: rest)).1 = Except.ok st2
      ∧ st2.bmp_len = beVal [b1, b2, b3, b4] - 6 := by
  have hlt : beVal [b1, b2, b3, b4] < 4294967296 := by
    simp [beVal, reverseBytes, leVal]; omega
  have harith :
      (beVal [b1, b2, b3, b4] % 4294967296 + (4294967296 - (1 + BMP_HDRv3_LEN))) % 4294967296
        = beVal [b1, b2, b3, b4] - 6 := by
    simp [BMP_HDRv3_LEN]
    omega
  simp only [parseBMPv3, recvN, BMP_HDRv3_LEN, List.length_cons, List.take, List.getD,
    List.getElem?_cons_zero, List.getElem?_cons_succ, Option.getD_some]
  have hmin : min 5 (rest.length + 1 + 1 + 1 + 1 + 1) = 5 := by omega
  simp [hmin, harith]
  split
  · refine ⟨_, rfl, ?_⟩
    rw [parsePeerHdr_bmp_len]
    simp
    omega
  · refine ⟨_, rfl, ?_⟩
    simp
    omega

/-- Claim C5: an Initiation or Termination message whose `bmp_len` is exactly
40000 is read in full (all 40000 body bytes are consumed) and decoded by the
TLV walk, while one whose `bmp_len` exceeds 40000 is ignored after logging:
no byte of its body is read and the router record is returned unchanged. -/
theorem initTerm_40000_gate (caps : Caps) (r : Router) (src : List Nat) (L : Nat) :
    (L = 40000 → 40000 ≤ src.length →
        handleInitMsg caps L r src =
          .ok (initTlvLoop caps 40000 (src.take 40000) 40000 r 0, 40000, src.drop 40000)
      ∧ handleTermMsg caps L r src =
          .ok (termTlvLoop caps 40000 (src.take 40000) 40000 r 0, 40000, src.drop 40000))
  ∧ (40000 < L →
        handleInitMsg caps L r src = .ok (r, 0, src)
      ∧ handleTermMsg caps L r src = .ok (r, 0, src)) := by
  constructor
  · rintro rfl h
    constructor
    · simp only [handleInitMsg]
      rw [if_pos (by omega), if_neg (by omega)]
    · simp only [handleTermMsg]
      rw [if_pos (by omega), if_neg (by omega)]
  · intro h
    constructor
    · simp only [handleInitMsg]
      rw [if_neg (by omega)]
    · simp only [handleTermMsg]
      rw [if_neg (by omega)]

/-- Claim C6: for a stats TLV with big-endian type t and length l followed by
its value bytes: if l is 4 or 8 and t is one of the nine recognized codes
(0 through 8), the big-endian value is stored in the counter slot named by t
and the value bytes are consumed; if l is 4 or 8 and t is unrecognized, the
bytes are consumed with no counter update; for any other l (including 0),
exactly l bytes are skipped, with no update and no error, and decoding
continues with the next TLV. -/
theorem processStatTLV_cases (s : StatsRecord) (t0 t1 l0 l1 : Nat) (rest : List Nat) :
    ((beVal [l0, l1] = 4 ∨ beVal [l0, l1] = 8) → beVal [l0, l1] ≤ rest.length →
        beVal [t0, t1] ≤ 8 →
      processStatTLV s (t0 :: t1 :: l0 :: l1 :: rest) =
        .ok (statsApply s (beVal [t0, t1]) (beVal (rest.take (beVal [l0, l1]))),
             rest.drop (beVal [l0, l1]))
      ∧ statSlot (beVal [t0, t1])
          (statsApply s (beVal [t0, t1]) (beVal (rest.take (beVal [l0, l1]))))
          = beVal (rest.take (beVal [l0, l1])))
  ∧ ((beVal [l0, l1] = 4 ∨ beVal [l0, l1] = 8) → beVal [l0, l1] ≤ rest.length →
        8 < beVal [t0, t1] →
      processStatTLV s (t0 :: t1 :: l0 :: l1 :: rest) =
        .ok (s, rest.drop (beVal [l0, l1])))
  ∧ (beVal [l0, l1] ≠ 4 → beVal [l0, l1] ≠ 8 →
      processStatTLV s (t0 :: t1 :: l0 :: l1 :: rest) =
        .ok (s, rest.drop (beVal [l0, l1]))) := by
  refine ⟨?_, ?_, ?_⟩
  · intro hl hle ht
    constructor
    · simp only [processStatTLV]
      rw [if_neg (by simp)]
      simp only [List.take_succ_cons, List.take_zero, List.drop_succ_cons, List.drop_zero]
      rw [if_neg (by simp), if_pos hl, if_pos hle]
    · exact statSlot_statsApply _ _ _ ht
  · intro hl hle ht
    simp only [processStatTLV]
    rw [if_neg (by simp)]
    simp only [List.take_succ_cons, List.take_zero, List.drop_succ_cons, List.drop_zero]
    rw [if_neg (by simp), if_pos hl, if_pos hle, statsApply_unknown s _ _ ht]
  · intro h4 h8
    simp only [processStatTLV]
    rw [if_neg (by simp)]
    simp only [List.take_succ_cons, List.take_zero, List.drop_succ_cons, List.drop_zero]
    rw [if_neg (by simp), if_neg (by tauto)]

/-- Claim C7: in both the v3 peer-header path and the v1/v2 path, the stored
`peer_as` - produced by printing the four AS bytes as `0x%04x%04x` and
reparsing with base-16 `strtoll` - equals the field read directly as a
big-endian 32-bit unsigned integer: the hex-string round trip is lossless. -/
theorem peerAs_roundtrip (st : ParseState) (now : Nat) (src : List Nat)
    (hb : ∀ b ∈ src, b < 256) :
    (42 ≤ src.length →
      (parsePeerHdr st now src).1.p_entry.peer_as =
        beVal [src.getD 26 0, src.getD 27 0, src.getD 28 0, src.getD 29 0])
  ∧ (43 ≤ src.length →
      ∃ st2, parseBMPv2 st now src = (Except.ok st2, src.drop 43)
        ∧ st2.p_entry.peer_as =
          beVal [src.getD 27 0, src.getD 28 0, src.getD 29 0, src.getD 30 0]) := by
  constructor
  · intro h
    simp only [parsePeerHdr, recvN, BMP_PEER_HDR_LEN, take42_eq src h, peerEntryOfBuf]
    rw [getD_take_of_lt src 42 26 (by omega), getD_take_of_lt src 42 27 (by omega),
        getD_take_of_lt src 42 28 (by omega), getD_take_of_lt src 42 29 (by omega)]
    exact peerAsValue_eq_beVal _ _ _ _
      (getD_lt_of_forall src hb 26 (by omega)) (getD_lt_of_forall src hb 27 (by omega))
      (getD_lt_of_forall src hb 28 (by omega)) (getD_lt_of_forall src hb 29 (by omega))
  · intro h
    have hpad : src.take 43 ++ List.replicate (43 - src.length) 0 = src.take 43 := by
      simp [Nat.sub_eq_zero_of_le h]
    have hmin : min 43 src.length = 43 := by omega
    simp only [parseBMPv2, recvN, BMP_HDRv1v2_LEN, hpad, hmin]
    rw [if_neg (by omega)]
    refine ⟨_, rfl, ?_⟩
    simp only [peerEntryOfBufV2]
    rw [getD_take_of_lt src 43 27 (by omega), getD_take_of_lt src 43 28 (by omega),
        getD_take_of_lt src 43 29 (by omega), getD_take_of_lt src 43 30 (by omega)]
    exact peerAsValue_eq_beVal _ _ _ _
      (getD_lt_of_forall src hb 27 (by omega)) (getD_lt_of_forall src hb 28 (by omega))
      (getD_lt_of_forall src hb 29 (by omega)) (getD_lt_of_forall src hb 30 (by omega))

/-- Claim C8: in both the v3 peer-header path and the v1/v2 path, when the
4-byte timestamp-seconds wire field is nonzero the stored `timestamp_secs`
is its host-order (big-endian) value, and when it is zero the stored value
is the wall clock `now`. -/
theorem peerHdr_timestamp (st : ParseState) (now : Nat) (src : List Nat) :
    (42 ≤ src.length →
      (parsePeerHdr st now src).1.p_entry.timestamp_secs =
        (if beVal [src.getD 34 0, src.getD 35 0, src.getD 36 0, src.getD 37 0] ≠ 0
         then beVal [src.getD 34 0, src.getD 35 0, src.getD 36 0, src.getD 37 0] else now))
  ∧ (43 ≤ src.length →
      ∃ st2, parseBMPv2 st now src = (Except.ok st2, src.drop 43)
        ∧ st2.p_entry.timestamp_secs =
          (if beVal [src.getD 35 0, src.getD 36 0, src.getD 37 0, src.getD 38 0] ≠ 0
           then beVal [src.getD 35 0, src.getD 36 0, src.getD 37 0, src.getD 38 0] else now)) := by
  constructor
  · intro h
    simp only [parsePeerHdr, recvN, BMP_PEER_HDR_LEN, take42_eq src h, peerEntryOfBuf]
    rw [getD_take_of_lt src 42 34 (by omega), getD_take_of_lt src 42 35 (by omega),
        getD_take_of_lt src 42 36 (by omega), getD_take_of_lt src 42 37 (by omega)]
  · intro h
    have hpad : src.take 43 ++ List.replicate (43 - src.length) 0 = src.take 43 := by
      simp [Nat.sub_eq_zero_of_le h]
    have hmin : min 43 src.length = 43 := by omega
    simp only [parseBMPv2, recvN, BMP_HDRv1v2_LEN, hpad, hmin]
    rw [if_neg (by omega)]
    refine ⟨_, rfl, ?_⟩
    simp only [peerEntryOfBufV2]
    rw [getD_take_of_lt src 43 35 (by omega), getD_take_of_lt src 43 36 (by omega),
        getD_take_of_lt src 43 37 (by omega), getD_take_of_lt src 43 38 (by omega)]

/-- Claim C9: `handleMessage` reads exactly one version byte and dispatches:
an I/O failure and an orderly close before that byte throw distinct messages;
version 3 invokes the v3 common-header parser on the rest of the stream;
versions 1 and 2 invoke the v1/v2 parser; any other version throws the
unsupported-version message leaving the rest of the stream unread. -/
theorem handleMessage_dispatch (st : ParseState) (now : Nat) (v : Nat) (rest : List Nat) :
    handleMessage st now Conn.ioError = (Except.error "(1) Failed to read from socket.", [])
  ∧ handleMessage st now (Conn.stream []) = (Except.error "(2) Connection closed", [])
  ∧ ("(2) Connection closed" : String) ≠ "(1) Failed to read from socket."
  ∧ handleMessage st now (Conn.stream (3 :: rest)) = parseBMPv3 st now rest
  ∧ (v = 1 ∨ v = 2 → handleMessage st now (Conn.stream (v :: rest)) = parseBMPv2 st now rest)
  ∧ (v ≠ 3 → v ≠ 1 → v ≠ 2 → handleMessage st now (Conn.stream (v :: rest)) =
      (Except.error "ERROR: Unsupported BMP message version", rest)) := by
  refine ⟨rfl, rfl, by decide, rfl, ?_, ?_⟩
  · rintro (rfl | rfl) <;> rfl
  · intro h3 h1 h2
    simp [handleMessage, h3, h1, h2]

/-- Claim C10: `parsePeerUpEventHdr` copies the current peer timestamp and
hash id into the event record before its first read, so in every outcome -
normal return, short-read false return, and even the exit by exception from
the negative-size drain - the caller-visible event carries those two fields.
A short first read makes the function return false when the failure drain
size `bmp_len - 42 - 0` is nonnegative as an `int` (42 ≤ bmp_len and the
difference below 2^31); when `bmp_len < 42` the function instead throws
`std::bad_array_new_length` and never returns, with the two fields already
written. -/
theorem peerUpEvent_fields_set (st : ParseState) (ev : PeerUpEvent) (src : List Nat) :
    (parsePeerUpEventHdr st ev src).2.2.1.timestamp_secs = st.p_entry.timestamp_secs
  ∧ (parsePeerUpEventHdr st ev src).2.2.1.peer_hash_id = st.p_entry.hash_id
  ∧ (src.length < 16 → 42 ≤ st.bmp_len → st.bmp_len - 42 < 2147483648 →
      st.bmp_len < 4294967296 →
      (parsePeerUpEventHdr st ev src).1 = none
      ∧ (parsePeerUpEventHdr st ev src).2.1 = false)
  ∧ (src.length < 16 → st.bmp_len < 42 →
      (parsePeerUpEventHdr st ev src).1 = some "std::bad_array_new_length") := by
  refine ⟨?_, ?_, ?_, ?_⟩
  · simp only [parsePeerUpEventHdr, peerUpFail]
    repeat' split
    all_goals simp_all
  · simp only [parsePeerUpEventHdr, peerUpFail]
    repeat' split
    all_goals simp_all
  · intro h16 h42 hlt hmax
    simp only [parsePeerUpEventHdr]
    rw [if_neg (by omega)]
    simp only [peerUpFail, BMP_PEER_HDR_LEN]
    rw [if_pos (by omega)]
    exact ⟨rfl, rfl⟩
  · intro h16 h42
    simp only [parsePeerUpEventHdr]
    rw [if_neg (by omega)]
    simp only [peerUpFail, BMP_PEER_HDR_LEN]
    rw [if_neg (by omega)]

/-- Witness for claim C2: the amended statement applied to the concrete
2-byte stream. -/
theorem parsePeerHdr_short_populates_witness :
    (([0, 0] : List Nat).length < 42)
  ∧ ((parsePeerHdr stC2 12345 [0, 0]).1.errLogged = true
     ∧ (parsePeerHdr stC2 12345 [0, 0]).1.p_entry =
        peerEntryOfBuf stC2.p_entry 12345
          (([0, 0] : List Nat).take 42 ++ List.replicate (42 - ([0, 0] : List Nat).length) 0)) :=
  ⟨by decide, parsePeerHdr_short_populates stC2 12345 [0, 0] (by decide)⟩

/-- Witness for claim C4: a v3 common header of type 4 and wire length 10
leaves `bmp_len` = 4. -/
theorem parseBMPv3_bmp_len_witness :
    (0 : Nat) < 256 ∧ (10 : Nat) < 256 ∧ 6 ≤ beVal [0, 0, 0, 10]
  ∧ (∃ st2, (parseBMPv3 stZero 0 (4 :: 0 :: 0 :: 0 :: 10 :: [])).1 = Except.ok st2
      ∧ st2.bmp_len = beVal [0, 0, 0, 10] - 6) :=
  ⟨by decide, by decide, by decide,
   parseBMPv3_bmp_len stZero 0 4 0 0 0 10 [] (by decide) (by decide) (by decide)
     (by decide) (by decide)⟩

/-- Witness for claim C5: a 40000-byte body is read in full and decoded; a
`bmp_len` of 40001 reads nothing and leaves the router record unchanged. -/
theorem initTerm_40000_gate_witness :
    (40000 : Nat) ≤ (List.replicate 40000 (0 : Nat)).length
  ∧ (handleInitMsg capsC1 40000 routerC1 (List.replicate 40000 0) =
        .ok (initTlvLoop capsC1 40000 ((List.replicate 40000 (0 : Nat)).take 40000) 40000 routerC1 0,
             40000, (List.replicate 40000 (0 : Nat)).drop 40000)
      ∧ handleTermMsg capsC1 40000 routerC1 (List.replicate 40000 0) =
        .ok (termTlvLoop capsC1 40000 ((List.replicate 40000 (0 : Nat)).take 40000) 40000 routerC1 0,
             40000, (List.replicate 40000 (0 : Nat)).drop 40000))
  ∧ (40000 : Nat) < 40001
  ∧ (handleInitMsg capsC1 40001 routerC1 [] = .ok (routerC1, 0, [])
      ∧ handleTermMsg capsC1 40001 routerC1 [] = .ok (routerC1, 0, [])) :=
  ⟨by rw [List.length_replicate],
   (initTerm_40000_gate capsC1 routerC1 (List.replicate 40000 0) 40000).1 rfl
     (by rw [List.length_replicate]),
   by omega,
   (initTerm_40000_gate capsC1 routerC1 [] 40001).2 (by omega)⟩

/-- Witness for claim C6: a recognized TLV (type 2, length 4, value 7)
updates the duplicate-withdraws slot; an unrecognized type 99 of length 4
consumes its bytes with no update; a zero-length TLV is consumed with no
update and no error. -/
theorem processStatTLV_cases_witness :
    (beVal [0, 4] = 4 ∨ beVal [0, 4] = 8)
  ∧ beVal [0, 4] ≤ ([0, 0, 0, 7] : List Nat).length
  ∧ beVal [0, 2] ≤ 8
  ∧ (processStatTLV statsZero (0 :: 2 :: 0 :: 4 :: [0, 0, 0, 7]) =
        .ok (statsApply statsZero (beVal [0, 2]) (beVal (([0, 0, 0, 7] : List Nat).take (beVal [0, 4]))),
             ([0, 0, 0, 7] : List Nat).drop (beVal [0, 4]))
      ∧ statSlot (beVal [0, 2])
          (statsApply statsZero (beVal [0, 2]) (beVal (([0, 0, 0, 7] : List Nat).take (beVal [0, 4]))))
          = beVal (([0, 0, 0, 7] : List Nat).take (beVal [0, 4])))
  ∧ 8 < beVal [0, 99]
  ∧ processStatTLV statsZero (0 :: 99 :: 0 :: 4 :: [0, 0, 0, 7]) =
      .ok (statsZero, ([0, 0, 0, 7] : List Nat).drop (beVal [0, 4]))
  ∧ (beVal [0, 0] ≠ 4 ∧ beVal [0, 0] ≠ 8)
  ∧ processStatTLV statsZero (0 :: 2 :: 0 :: 0 :: []) =
      .ok (statsZero, ([] : List Nat).drop (beVal [0, 0])) :=
  ⟨by decide, by decide, by decide,
   (processStatTLV_cases statsZero 0 2 0 4 [0, 0, 0, 7]).1 (by decide) (by decide) (by decide),
   by decide,
   (processStatTLV_cases statsZero 0 99 0 4 [0, 0, 0, 7]).2.1 (by decide) (by decide) (by decide),
   ⟨by decide, by decide⟩,
   (processStatTLV_cases statsZero 0 2 0 0 []).2.2 (by decide) (by decide)⟩

/-- Witness for claim C7: the AS round trip on a concrete 43-byte stream of
bytes 7, through both parser paths. -/
theorem peerAs_roundtrip_witness :
    (∀ b ∈ srcW, b < 256) ∧ (42 : Nat) ≤ srcW.length ∧ (43 : Nat) ≤ srcW.length
  ∧ (parsePeerHdr stZero 5 srcW).1.p_entry.peer_as =
      beVal [srcW.getD 26 0, srcW.getD 27 0, srcW.getD 28 0, srcW.getD 29 0]
  ∧ (∃ st2, parseBMPv2 stZero 5 srcW = (Except.ok st2, srcW.drop 43)
      ∧ st2.p_entry.peer_as =
          beVal [srcW.getD 27 0, srcW.getD 28 0, srcW.getD 29 0, srcW.getD 30 0]) :=
  ⟨by decide, by decide, by decide,
   (peerAs_roundtrip stZero 5 srcW (by decide)).1 (by decide),
   (peerAs_roundtrip stZero 5 srcW (by decide)).2 (by decide)⟩

/-- Witness for claim C8: the timestamp rule on a concrete 43-byte stream,
through both parser paths. -/
theorem peerHdr_timestamp_witness :
    (42 : Nat) ≤ srcW.length ∧ (43 : Nat) ≤ srcW.length
  ∧ (parsePeerHdr stZero 777 srcW).1.p_entry.timestamp_secs =
      (if beVal [srcW.getD 34 0, srcW.getD 35 0, srcW.getD 36 0, srcW.getD 37 0] ≠ 0
       then beVal [srcW.getD 34 0, srcW.getD 35 0, srcW.getD 36 0, srcW.getD 37 0] else 777)
  ∧ (∃ st2, parseBMPv2 stZero 777 srcW = (Except.ok st2, srcW.drop 43)
      ∧ st2.p_entry.timestamp_secs =
          (if beVal [srcW.getD 35 0, srcW.getD 36 0, srcW.getD 37 0, srcW.getD 38 0] ≠ 0
           then beVal [srcW.getD 35 0, srcW.getD 36 0, srcW.getD 37 0, srcW.getD 38 0] else 777)) :=
  ⟨by decide, by decide,
   (peerHdr_timestamp stZero 777 srcW).1 (by decide),
   (peerHdr_timestamp stZero 777 srcW).2 (by decide)⟩

/-- Witness for claim C9: version byte 7 throws the unsupported-version
message without touching the rest of the stream; version byte 1 dispatches
to the v1/v2 parser. -/
theorem handleMessage_dispatch_witness :
    ((7 : Nat) ≠ 3) ∧ ((7 : Nat) ≠ 1) ∧ ((7 : Nat) ≠ 2)
  ∧ handleMessage stZero 0 (Conn.stream (7 :: [9])) =
      (Except.error "ERROR: Unsupported BMP message version", [9])
  ∧ handleMessage stZero 0 (Conn.stream (1 :: [9])) = parseBMPv2 stZero 0 [9] :=
  ⟨by decide, by decide, by decide,
   (handleMessage_dispatch stZero 0 7 [9]).2.2.2.2.2 (by decide) (by decide) (by decide),
   (handleMessage_dispatch stZero 0 1 [9]).2.2.2.2.1 (Or.inl rfl)⟩

/-- Witness for claim C10: on a 2-byte stream (short of the 16-byte local
address) with `bmp_len = 100` the function returns false - no exception -
yet the returned event carries the peer timestamp and hash id; with
`bmp_len = 0` (the `stZero` state) the same short read ends in the
`std::bad_array_new_length` exception, the event fields again set. -/
theorem peerUpEvent_fields_set_witness :
    (([4, 4] : List Nat).length < 16)
  ∧ (42 : Nat) ≤ stC10.bmp_len ∧ stC10.bmp_len - 42 < 2147483648
  ∧ stC10.bmp_len < 4294967296
  ∧ (parsePeerUpEventHdr stC10 evZero [4, 4]).2.2.1.timestamp_secs = stC10.p_entry.timestamp_secs
  ∧ (parsePeerUpEventHdr stC10 evZero [4, 4]).2.2.1.peer_hash_id = stC10.p_entry.hash_id
  ∧ ((parsePeerUpEventHdr stC10 evZero [4, 4]).1 = none
     ∧ (parsePeerUpEventHdr stC10 evZero [4, 4]).2.1 = false)
  ∧ stZero.bmp_len < 42
  ∧ (parsePeerUpEventHdr stZero evZero [4, 4]).1 = some "std::bad_array_new_length" :=
  ⟨by decide, by decide, by decide, by decide,
   (peerUpEvent_fields_set stC10 evZero [4, 4]).1,
   (peerUpEvent_fields_set stC10 evZero [4, 4]).2.1,
   (peerUpEvent_fields_set stC10 evZero [4, 4]).2.2.1 (by decide) (by decide) (by decide) (by decide),
   by decide,
   (peerUpEvent_fields_set stZero evZero [4, 4]).2.2.2 (by decide) (by decide)⟩
